import Mathlib

/-!
Formal model of the core components of the Ragger host application
(`src/core/IndexManager.cpp`, `src/core/EventBus.cpp`,
`src/core/PluginManager.cpp` and the shared `api/ragger_plugin_api.h`),
as a shallow embedding: each C++ member function becomes a Lean function
on an explicit state record, machine pointers become opaque numeric
identities, the SQLite tables become lists of rows, and the file system,
wall clock and dynamic-module world are passed in as explicit parameters.
-/

namespace Ragger

/-! ## Shared error codes (`api/ragger_plugin_api.h`) -/

def RAGGER_SUCCESS : Int := 0

def RAGGER_ERROR_INVALID_ARGUMENT : Int := -1

def RAGGER_ERROR_FILE_NOT_FOUND : Int := -3

def RAGGER_ERROR_PLUGIN_LOAD_FAILED : Int := -4

def RAGGER_ERROR_ABI_VERSION_MISMATCH : Int := -6

def RAGGER_ERROR_OPERATION_NOT_SUPPORTED : Int := -7

/-- Compiled-in plugin ABI constant (`RAGGER_PLUGIN_ABI_VERSION` in
`api/ragger_plugin_api.h`). -/
def RAGGER_PLUGIN_ABI_VERSION : Int := 100

/-! ## Paths and association-list helpers

`std::filesystem::path` values are modelled structurally: a directory
component list, a stem and an extension (the extension carries its leading
dot, as `fs::path::extension` does).  `std::unordered_map` becomes an
association list with `alookup` for `find` and `aupsert` for `operator[]=`
(replace the existing binding, else append). -/

structure FPath where
  dir : List String
  stem : String
  ext : String
deriving DecidableEq, Repr

def pathString (p : FPath) : String :=
  String.intercalate "/" p.dir ++ "/" ++ p.stem ++ p.ext

def alookup {α β : Type} [DecidableEq α] : List (α × β) → α → Option β
  | [], _ => none
  | (k, v) :: rest, a => if k = a then some v else alookup rest a

def aupsert {α β : Type} [DecidableEq α] : List (α × β) → α → β → List (α × β)
  | [], a, b => [(a, b)]
  | (k, v) :: rest, a, b =>
      if k = a then (a, b) :: rest else (k, v) :: aupsert rest a b

def aerase {α β : Type} [DecidableEq α] : List (α × β) → α → List (α × β)
  | [], _ => []
  | (k, v) :: rest, a => if k = a then rest else (k, v) :: aerase rest a

/-- Component-list prefix test, used to model
`fs::recursive_directory_iterator(d)` reaching exactly the entries lying
under directory `d`. -/
def isUnder : List String → List String → Bool
  | [], _ => true
  | _, [] => false
  | d :: ds, q :: qs => d == q && isUnder ds qs

/-! ## File system model

`FileSys.dirs` is the set of existing directories; `FileSys.files` maps a
path to its entry (regular-file flag and byte content).  Reading a
non-regular entry fails, as the `std::ifstream` read in
`IndexManager::calculateFileHash` does. -/

structure FSEntry where
  regular : Bool
  bytes : List Nat
deriving DecidableEq, Repr

structure FileSys where
  dirs : List (List String)
  files : List (FPath × FSEntry)
deriving Repr

def readFileBytes (fsys : FileSys) (p : FPath) : Option (List Nat) :=
  match alookup fsys.files p with
  | some e => if e.regular then some e.bytes else none
  | none => none

/-- Stand-in for the OpenSSL SHA-256 digest that
`IndexManager::calculateFileHash` computes (OpenSSL is an external library,
not part of this repository).  The spec requires the digest to be
cryptographically collision-resistant because it is the sole change-detection
signal, so the model idealizes it as a collision-free content fingerprint:
the identity encoding, which is exactly injective. -/
def sha256Digest (bytes : List Nat) : List Nat := bytes

/-! ## IndexManager (`src/core/IndexManager.cpp`)

The SQLite tables become lists of rows; `fileHashes_` and `hashCache_`
become association lists; `std::chrono` clocks become a `now : Nat`
parameter measured in seconds. -/

structure FileRecord where
  path : FPath
  hash : List Nat
  lastIndexed : Nat
  fileSize : Nat
deriving DecidableEq, Repr

structure CodeBlockRow where
  id : Nat
  filePath : FPath
  name : String
  content : String
  startLine : Nat
  endLine : Nat
  blockType : String
  visibility : Nat
deriving DecidableEq, Repr

structure InvertedIndexRow where
  token : String
  blockId : Nat
  frequency : Nat
deriving DecidableEq, Repr

structure SymbolRow where
  id : Nat
  filePath : FPath
  name : String
  symType : String
  signature : String
  definitionBlockId : Option Nat
deriving DecidableEq, Repr

structure IndexDB where
  files : List FileRecord
  codeBlocks : List CodeBlockRow
  invertedIndex : List InvertedIndexRow
  symbols : List SymbolRow
deriving DecidableEq, Repr

structure IMState where
  db : IndexDB
  fileHashes : List (FPath × List Nat)
  hashCache : List (FPath × Nat)
  maxFileSize : Nat
deriving Repr

/-- Fresh `IndexManager` (constructor defaults: empty catalog, empty caches,
10 MiB file-size ceiling) after `initialize()` created the empty tables. -/
def imInit : IMState :=
  { db := { files := [], codeBlocks := [], invertedIndex := [], symbols := [] }
    fileHashes := []
    hashCache := []
    maxFileSize := 10 * 1024 * 1024 }

/-- The hash cache TTL: `std::chrono::minutes(5)`, in seconds. -/
def hashCacheTTL : Nat := 300

/-- Recompute-and-cache arm of `IndexManager::calculateFileHash`: stream the
file, digest it, then store the digest in `fileHashes_` and the computation
time in `hashCache_`. -/
def computeAndCacheHash (s : IMState) (fsys : FileSys) (now : Nat) (p : FPath) :
    Option (List Nat) × IMState :=
  match readFileBytes fsys p with
  | none => (none, s)
  | some bytes =>
      let h := sha256Digest bytes
      (some h,
       { s with
           fileHashes := aupsert s.fileHashes p h
           hashCache := aupsert s.hashCache p now })

/-- `IndexManager::calculateFileHash`.  When both `fileHashes_` and
`hashCache_` hold an entry for the path, the code first calls
`fs::last_write_time` (which throws — caught, returning the empty hash —
when the path no longer exists) and then returns the cached digest if it is
younger than the TTL; otherwise it recomputes and refreshes both caches.
The empty-string failure hash is modelled as `none`. -/
def IMState.calculateFileHash (s : IMState) (fsys : FileSys) (now : Nat) (p : FPath) :
    Option (List Nat) × IMState :=
  match alookup s.fileHashes p, alookup s.hashCache p with
  | some h, some t =>
      if (alookup fsys.files p).isNone then (none, s)
      else if now - t < hashCacheTTL then (some h, s)
      else computeAndCacheHash s fsys now p
  | some _, none => computeAndCacheHash s fsys now p
  | none, _ => computeAndCacheHash s fsys now p

/-- `IndexManager::needsReindexing`: hash the file (conservatively `true` on
hash failure), report `true` when the path has no recorded hash, else
compare the recorded hash with the fresh one. -/
def IMState.needsReindexing (s : IMState) (fsys : FileSys) (now : Nat) (p : FPath) :
    Bool × IMState :=
  let r := s.calculateFileHash fsys now p
  match r.1 with
  | none => (true, r.2)
  | some current =>
      match alookup r.2.fileHashes p with
      | none => (true, r.2)
      | some stored => (decide (stored ≠ current), r.2)

/-- Extension whitelist in `IndexManager::shouldIndexFile`. -/
def supportedExts : List String :=
  [".cpp", ".cxx", ".cc", ".c", ".hpp", ".hxx", ".h",
   ".py", ".java", ".js", ".ts", ".rs", ".go"]

/-- `IndexManager::shouldIndexFile`: reject when `fs::file_size` fails
(missing or non-regular path) or exceeds the ceiling, else accept exactly
the whitelisted extensions. -/
def IMState.shouldIndexFile (s : IMState) (fsys : FileSys) (p : FPath) : Bool :=
  match alookup fsys.files p with
  | none => false
  | some e =>
      if !e.regular then false
      else if e.bytes.length > s.maxFileSize then false
      else supportedExts.contains p.ext

/-- `IndexManager::deleteFileRecords`: the four `DELETE` statements —
inverted-index rows whose block belongs to the file, then the file's
symbols, then its code blocks, then the file row itself. -/
def IndexDB.deleteFileRecords (db : IndexDB) (p : FPath) : IndexDB :=
  let blockIds := (db.codeBlocks.filter (fun b => decide (b.filePath = p))).map (·.id)
  { files := db.files.filter (fun f => decide (f.path ≠ p))
    codeBlocks := db.codeBlocks.filter (fun b => decide (b.filePath ≠ p))
    invertedIndex := db.invertedIndex.filter (fun r => !blockIds.contains r.blockId)
    symbols := db.symbols.filter (fun r => decide (r.filePath ≠ p)) }

/-- `IndexManager::insertFileRecord`: `INSERT OR REPLACE INTO files`,
binding the path, the digest, the current time and the file size. -/
def IndexDB.insertFileRecord (db : IndexDB) (p : FPath) (h : List Nat)
    (now : Nat) (size : Nat) : IndexDB :=
  { db with
      files := { path := p, hash := h, lastIndexed := now, fileSize := size } ::
        db.files.filter (fun f => decide (f.path ≠ p)) }

/-- `IndexManager::indexFile`: missing/non-regular path fails with
`RAGGER_ERROR_FILE_NOT_FOUND`; a path failing the inclusion policy is
skipped silently with success; a path that `needsReindexing` rejects is
reported up to date; otherwise the digest is computed, the old rows are
deleted, a fresh file record is inserted and `fileHashes_` is updated. -/
def IMState.indexFile (s : IMState) (fsys : FileSys) (now : Nat) (p : FPath) :
    Int × IMState :=
  match alookup fsys.files p with
  | none => (RAGGER_ERROR_FILE_NOT_FOUND, s)
  | some entry =>
      if !entry.regular then (RAGGER_ERROR_FILE_NOT_FOUND, s)
      else if !s.shouldIndexFile fsys p then (RAGGER_SUCCESS, s)
      else
        let need := s.needsReindexing fsys now p
        if !need.1 then (RAGGER_SUCCESS, need.2)
        else
          let hashed := need.2.calculateFileHash fsys now p
          match hashed.1 with
          | none => (RAGGER_ERROR_OPERATION_NOT_SUPPORTED, hashed.2)
          | some h =>
              let s3 := { hashed.2 with
                db := (hashed.2.db.deleteFileRecords p).insertFileRecord p h now
                  entry.bytes.length }
              (RAGGER_SUCCESS, { s3 with fileHashes := aupsert s3.fileHashes p h })

/-- `IndexManager::discoverFiles`: every regular file under the directory
that passes the inclusion policy. -/
def IMState.discoverFiles (s : IMState) (fsys : FileSys) (d : List String) :
    List FPath :=
  (fsys.files.filter
      (fun e => isUnder d e.1.dir && e.2.regular && s.shouldIndexFile fsys e.1)).map (·.1)

/-- Loop body of `IndexManager::indexDirectory`: index each file in turn,
counting the calls that returned `RAGGER_SUCCESS`. -/
def indexFilesAux (fsys : FileSys) (now : Nat) : IMState → List FPath → Nat × IMState
  | s, [] => (0, s)
  | s, p :: rest =>
      let r := s.indexFile fsys now p
      let t := indexFilesAux fsys now r.2 rest
      ((if r.1 = RAGGER_SUCCESS then 1 else 0) + t.1, t.2)

/-- `IndexManager::indexDirectory`: missing or non-directory argument fails
with `RAGGER_ERROR_FILE_NOT_FOUND`; otherwise discover the eligible files,
index each one, and return the count of successfully indexed files. -/
def IMState.indexDirectory (s : IMState) (fsys : FileSys) (now : Nat)
    (d : List String) : Int × IMState :=
  if !fsys.dirs.contains d then (RAGGER_ERROR_FILE_NOT_FOUND, s)
  else
    let t := indexFilesAux fsys now s (s.discoverFiles fsys d)
    ((t.1 : Int), t.2)

/-- `IndexManager::rebuildIndex`: `DELETE FROM files`, `DELETE FROM
code_blocks`, `DELETE FROM inverted_index`, then clear `fileHashes_`.
No statement touches the `symbols` table and `hashCache_` is not cleared. -/
def IMState.rebuildIndex (s : IMState) : Int × IMState :=
  (RAGGER_SUCCESS,
   { s with
       db := { s.db with files := [], codeBlocks := [], invertedIndex := [] }
       fileHashes := [] })

/-- `IndexManager::removeFromIndex`: delete the catalog and derivative rows
and evict the cached hash. -/
def IMState.removeFromIndex (s : IMState) (p : FPath) : Int × IMState :=
  (RAGGER_SUCCESS,
   { s with db := s.db.deleteFileRecords p, fileHashes := aerase s.fileHashes p })

/-! ## EventBus (`src/core/EventBus.cpp`)

Callback and user-data pointers are modelled by opaque numeric identities
(`0` is the null pointer); `const char*` arguments that may be null become
`Option String`; the payload pointer becomes the payload bytes themselves,
so the deep copy made by `emitEventAsync` is value copying. -/

inductive EventType
  | EVENT_INDEXING_STARTED
  | EVENT_INDEXING_COMPLETED
  | EVENT_FILE_PARSED
  | EVENT_CODEBLOCK_INDEXED
  | EVENT_RANKING_COMPLETED
  | EVENT_CONTEXT_GENERATED
  | EVENT_LLM_CHUNK_RECEIVED
  | EVENT_PLUGIN_ERROR
deriving DecidableEq, Repr

structure EventData where
  type : EventType
  timestamp : Nat
  sourcePlugin : Option String
  data : Option (List Nat)
  dataSize : Nat
deriving DecidableEq, Repr

structure Subscription where
  type : EventType
  callback : Nat
  userData : Nat
  priority : Int
  filter : String
  enabled : Bool
deriving DecidableEq, Repr

/-- `EventBus::Subscription::matches`: a disabled subscription never
matches; a non-empty per-subscription filter requires the event to carry an
equal source-plugin string. -/
def Subscription.matches (sub : Subscription) (e : EventData) : Bool :=
  if !sub.enabled then false
  else if sub.filter ≠ "" then
    match e.sourcePlugin with
    | none => false
    | some src => sub.filter == src
  else true

structure EventQueueItem where
  event : EventData
  priority : Int
deriving DecidableEq, Repr

structure Stats where
  totalEventsEmitted : Nat
  totalEventsProcessed : Nat
  eventsDropped : Nat
  averageProcessingTime : Nat
  eventsByType : List (EventType × Nat)
deriving DecidableEq, Repr

structure BusState where
  subscriptions : List Subscription
  eventQueue : List EventQueueItem
  stats : Stats
  globalFilters : List (String × Bool)
  eventFilters : List (EventType × String)
  minPriority : Int
  maxPriority : Int
deriving Repr

/-- Fresh `EventBus` (constructor defaults). -/
def busInit : BusState :=
  { subscriptions := []
    eventQueue := []
    stats := { totalEventsEmitted := 0, totalEventsProcessed := 0,
               eventsDropped := 0, averageProcessingTime := 0, eventsByType := [] }
    globalFilters := []
    eventFilters := []
    minPriority := -2147483648
    maxPriority := 2147483647 }

/-- `EventBus::shouldProcessEvent`: a source plugin globally disabled drops
the event; a non-empty per-event-type filter drops an event whose (non-null)
source differs from the filter string. -/
def BusState.shouldProcessEvent (s : BusState) (e : EventData) : Bool :=
  let globalOk :=
    match e.sourcePlugin with
    | none => true
    | some src =>
        match alookup s.globalFilters src with
        | some enabled => enabled
        | none => true
  if !globalOk then false
  else
    match alookup s.eventFilters e.type with
    | some filt =>
        if filt ≠ "" then
          match e.sourcePlugin with
          | some src => !(filt ≠ src)
          | none => true
        else true
    | none => true

/-- `EventBus::findMatchingSubscriptions`: the subscriptions of the event's
type that match it, in subscription-list (registration) order. -/
def BusState.findMatchingSubscriptions (s : BusState) (e : EventData) :
    List Subscription :=
  s.subscriptions.filter (fun sub => decide (sub.type = e.type) && sub.matches e)

/-- Sortedness wrt the `std::sort` comparator
`a.priority > b.priority` in `EventBus::processEvent`: every later element
has priority at most that of every earlier one. -/
abbrev SortedByPriority (l : List Subscription) : Prop :=
  l.Pairwise (fun a b => b.priority ≤ a.priority)

/-- Contract of the `std::sort` call in `EventBus::processEvent`: the output
is some permutation of the input that is sorted by descending priority.  The
C++ standard leaves the relative order of equivalent (equal-priority)
elements unspecified, so the embedding quantifies over every compliant
output. -/
abbrev StdSortResult (input output : List Subscription) : Prop :=
  output.Perm input ∧ SortedByPriority output

/-- Callback loop of `EventBus::processEvent`: each subscription of the
sorted list whose `enabled` flag is set is invoked, in list order. -/
def invokeSequence (sorted : List Subscription) : List Subscription :=
  sorted.filter (fun sub => sub.enabled)

/-- `calls` is a possible callback-invocation sequence of
`EventBus::processEvent` for event `e` in state `s`. -/
def ProcessEventInvokes (s : BusState) (e : EventData) (calls : List Subscription) :
    Prop :=
  ∃ sorted, StdSortResult (s.findMatchingSubscriptions e) sorted ∧
    calls = invokeSequence sorted

/-- Statistics update after a processed event (shared by `emitEvent` and the
asynchronous `processingLoop`): bump the total and per-type counters and
fold the measured duration into the running average. -/
def BusState.recordProcessed (s : BusState) (e : EventData) (duration : Nat) :
    BusState :=
  let processed := s.stats.totalEventsProcessed + 1
  let newAvg :=
    if processed = 1 then duration
    else (s.stats.averageProcessingTime * (processed - 1) + duration) / processed
  { s with
      stats := { s.stats with
        totalEventsProcessed := processed
        eventsByType :=
          aupsert s.stats.eventsByType e.type
            ((alookup s.stats.eventsByType e.type).getD 0 + 1)
        averageProcessingTime := newAvg } }

/-- `EventBus::emitEvent`: null event fails with
`RAGGER_ERROR_INVALID_ARGUMENT` before anything else; a filtered-out event
bumps the drop counter and succeeds; otherwise the event is processed
synchronously and the statistics are updated.  `duration` is the measured
processing wall time in microseconds. -/
def BusState.emitEvent (s : BusState) (e? : Option EventData) (duration : Nat) :
    Int × BusState :=
  match e? with
  | none => (RAGGER_ERROR_INVALID_ARGUMENT, s)
  | some e =>
      if !s.shouldProcessEvent e then
        (RAGGER_SUCCESS,
         { s with stats := { s.stats with eventsDropped := s.stats.eventsDropped + 1 } })
      else (RAGGER_SUCCESS, s.recordProcessed e duration)

/-- `EventBus::emitEventAsync`: null event fails with
`RAGGER_ERROR_INVALID_ARGUMENT`; a filtered-out event bumps the drop
counter; otherwise a deep copy of the event is queued with priority `0` and
the emitted counter is bumped. -/
def BusState.emitEventAsync (s : BusState) (e? : Option EventData) :
    Int × BusState :=
  match e? with
  | none => (RAGGER_ERROR_INVALID_ARGUMENT, s)
  | some e =>
      if !s.shouldProcessEvent e then
        (RAGGER_SUCCESS,
         { s with stats := { s.stats with eventsDropped := s.stats.eventsDropped + 1 } })
      else
        (RAGGER_SUCCESS,
         { s with
             eventQueue := s.eventQueue ++ [{ event := e, priority := 0 }]
             stats := { s.stats with
               totalEventsEmitted := s.stats.totalEventsEmitted + 1 } })

/-- `EventBus::subscribe`: null callback or an already-registered
(type, callback, userData) triple fails with
`RAGGER_ERROR_INVALID_ARGUMENT`; otherwise the new subscription (enabled,
with the given priority and filter) is appended. -/
def BusState.subscribe (s : BusState) (type : EventType) (callback userData : Nat)
    (priority : Int) (filter : Option String) : Int × BusState :=
  if callback = 0 then (RAGGER_ERROR_INVALID_ARGUMENT, s)
  else if s.subscriptions.any (fun sub =>
      decide (sub.type = type) && decide (sub.callback = callback) &&
      decide (sub.userData = userData)) then
    (RAGGER_ERROR_INVALID_ARGUMENT, s)
  else
    (RAGGER_SUCCESS,
     { s with subscriptions := s.subscriptions ++
         [{ type := type, callback := callback, userData := userData,
            priority := priority, filter := filter.getD "", enabled := true }] })

/-- `EventBus::subscribeMultiple`: null/empty type array or null callback
fails; otherwise one subscription per requested type is appended — with no
duplicate check. -/
def BusState.subscribeMultiple (s : BusState) (types : List EventType)
    (callback userData : Nat) (priority : Int) (filter : Option String) :
    Int × BusState :=
  if types.isEmpty || callback = 0 then (RAGGER_ERROR_INVALID_ARGUMENT, s)
  else
    (RAGGER_SUCCESS,
     { s with subscriptions := s.subscriptions ++
         types.map (fun t =>
           { type := t, callback := callback, userData := userData,
             priority := priority, filter := filter.getD "", enabled := true }) })

/-- `EventBus::unsubscribe`: null callback fails; when at least one
subscription has the given type and callback, all such subscriptions are
removed, else the call fails with `RAGGER_ERROR_INVALID_ARGUMENT`. -/
def BusState.unsubscribe (s : BusState) (type : EventType) (callback : Nat) :
    Int × BusState :=
  if callback = 0 then (RAGGER_ERROR_INVALID_ARGUMENT, s)
  else if s.subscriptions.any (fun sub =>
      decide (sub.type = type) && decide (sub.callback = callback)) then
    (RAGGER_SUCCESS,
     { s with subscriptions := s.subscriptions.filter (fun sub =>
         !(decide (sub.type = type) && decide (sub.callback = callback))) })
  else (RAGGER_ERROR_INVALID_ARGUMENT, s)

/-- `EventBus::unsubscribeAll`: null callback fails; otherwise every
subscription with the given callback is removed. -/
def BusState.unsubscribeAll (s : BusState) (callback : Nat) : Int × BusState :=
  if callback = 0 then (RAGGER_ERROR_INVALID_ARGUMENT, s)
  else
    (RAGGER_SUCCESS,
     { s with subscriptions :=
         s.subscriptions.filter (fun sub => decide (sub.callback ≠ callback)) })

/-! ## PluginManager (`src/core/PluginManager.cpp`)

A dynamic module on disk is described by a `ModuleDef`: whether `dlopen`
succeeds, which of the C-linkage symbols it exports (a missing symbol is
`none`) and what the exported functions report.  `PluginWorld` plays the
role of the file system seen through `dlopen`/`dlsym`.  Open module handles
are counted so that handle leaks are observable. -/

structure ModuleDef where
  regular : Bool
  loadable : Bool
  getAbiVersion : Option Int
  getName : Option String
  getVersion : Option String
  getDescription : Option String
  initializeResult : Option Int
  hasRegisterEvents : Bool
  getCapabilities : Option String
deriving DecidableEq, Repr

structure PluginWorld where
  dirs : List (List String)
  modules : List (FPath × ModuleDef)
deriving Repr

structure PluginInfo where
  name : String
  version : String
  description : String
  path : FPath
  loaded : Bool
  abiVersion : Int
  capabilities : String
deriving DecidableEq, Repr

structure LoadedPlugin where
  name : String
  info : PluginInfo
  libraryOpen : Bool
deriving DecidableEq, Repr

structure PluginError where
  pluginName : String
  errorMessage : String
  errorCode : Int
  timestamp : Nat
deriving DecidableEq, Repr

structure PMState where
  loadedPlugins : List (String × LoadedPlugin)
  pluginErrors : List PluginError
  openHandles : Nat
deriving Repr

/-- Fresh `PluginManager` with nothing loaded. -/
def pmInit : PMState :=
  { loadedPlugins := [], pluginErrors := [], openHandles := 0 }

/-- `PluginManager::reportPluginError`: append a diagnostic record. -/
def PMState.reportPluginError (s : PMState) (pluginName message : String)
    (errorCode : Int) (now : Nat) : PMState :=
  { s with pluginErrors := s.pluginErrors ++
      [{ pluginName := pluginName, errorMessage := message,
         errorCode := errorCode, timestamp := now }] }

/-- `PluginManager::extractPluginNameFromPath`: the path's stem (filename
with the extension removed). -/
def extractPluginNameFromPath (p : FPath) : String := p.stem

/-- `PluginManager::checkPluginABI`: exact equality against the compiled-in
constant. -/
def checkPluginABI (info : PluginInfo) : Int :=
  if info.abiVersion ≠ RAGGER_PLUGIN_ABI_VERSION then
    RAGGER_ERROR_ABI_VERSION_MISMATCH
  else RAGGER_SUCCESS

/-- `PluginManager::loadPluginLibrary`: `dlopen` the module (failure leaves
no handle open), resolve the four mandatory symbols (any missing one closes
the handle and fails with `RAGGER_ERROR_PLUGIN_LOAD_FAILED`), then read the
module's metadata.  The result is the error code, the populated metadata on
success, and the number of handles the call leaves open. -/
def loadPluginLibrary (m : ModuleDef) (p : FPath) :
    Int × Option PluginInfo × Nat :=
  if !m.loadable then (RAGGER_ERROR_PLUGIN_LOAD_FAILED, none, 0)
  else
    match m.getAbiVersion, m.getName, m.getVersion, m.getDescription with
    | some abi, some nm, some ver, some desc =>
        (RAGGER_SUCCESS,
         some { name := nm, version := ver, description := desc, path := p,
                loaded := false, abiVersion := abi, capabilities := "" }, 1)
    | _, _, _, _ => (RAGGER_ERROR_PLUGIN_LOAD_FAILED, none, 0)

/-- `PluginManager::initializePlugin`: a missing `plugin_initialize` symbol
fails with `RAGGER_ERROR_PLUGIN_LOAD_FAILED`; a non-zero return of the
plugin's `initialize` is propagated unchanged; on success the optional
capability string is recorded. -/
def initializePlugin (m : ModuleDef) (info : PluginInfo) : Int × PluginInfo :=
  match m.initializeResult with
  | none => (RAGGER_ERROR_PLUGIN_LOAD_FAILED, info)
  | some r =>
      if r ≠ RAGGER_SUCCESS then (r, info)
      else
        match m.getCapabilities with
        | some caps => (RAGGER_SUCCESS, { info with capabilities := caps })
        | none => (RAGGER_SUCCESS, info)

/-- `PluginManager::loadPlugin`.  A missing file fails with
`RAGGER_ERROR_FILE_NOT_FOUND`; a path whose stem is already a registry key
fails with `RAGGER_ERROR_INVALID_ARGUMENT` (no error record is appended on
that path); library-load, ABI and initialization failures close the module
handle, append an error record and propagate the code; on success the
descriptor is registered under the path stem. -/
def PMState.loadPlugin (s : PMState) (world : PluginWorld) (now : Nat)
    (p : FPath) : Int × PMState :=
  match alookup world.modules p with
  | none =>
      (RAGGER_ERROR_FILE_NOT_FOUND,
       s.reportPluginError "" ("Plugin file does not exist: " ++ pathString p)
         RAGGER_ERROR_FILE_NOT_FOUND now)
  | some m =>
      let pluginName := extractPluginNameFromPath p
      if (alookup s.loadedPlugins pluginName).isSome then
        (RAGGER_ERROR_INVALID_ARGUMENT, s)
      else
        match loadPluginLibrary m p with
        | (code, none, opened) =>
            (code,
             ({ s with openHandles := s.openHandles + opened }).reportPluginError
               pluginName "Failed to load plugin library" code now)
        | (_, some info, opened) =>
            let s1 := { s with openHandles := s.openHandles + opened }
            let rAbi := checkPluginABI info
            if rAbi ≠ RAGGER_SUCCESS then
              (rAbi,
               ({ s1 with openHandles := s1.openHandles - 1 }).reportPluginError
                 pluginName "ABI version mismatch" rAbi now)
            else
              let initr := initializePlugin m info
              if initr.1 ≠ RAGGER_SUCCESS then
                (initr.1,
                 ({ s1 with openHandles := s1.openHandles - 1 }).reportPluginError
                   pluginName "Failed to initialize plugin" initr.1 now)
              else
                let lp : LoadedPlugin :=
                  { name := pluginName,
                    info := { initr.2 with loaded := true },
                    libraryOpen := true }
                (RAGGER_SUCCESS,
                 { s1 with loadedPlugins := aupsert s1.loadedPlugins pluginName lp })

/-- `PluginManager::unloadPlugin`: unknown name fails with
`RAGGER_ERROR_INVALID_ARGUMENT`; otherwise the shutdown hook runs, the
module handle is closed and the descriptor is removed. -/
def PMState.unloadPlugin (s : PMState) (name : String) : Int × PMState :=
  match alookup s.loadedPlugins name with
  | none => (RAGGER_ERROR_INVALID_ARGUMENT, s)
  | some plugin =>
      let s1 :=
        if plugin.libraryOpen then { s with openHandles := s.openHandles - 1 } else s
      (RAGGER_SUCCESS, { s1 with loadedPlugins := aerase s1.loadedPlugins name })

/-- `PluginManager::isValidPluginFile`: a regular file with the platform's
dynamic-module extension. -/
def isValidPluginFile (m : ModuleDef) (p : FPath) : Bool :=
  m.regular && p.ext == ".so"

/-- `PluginManager::discoverPlugins`: the valid plugin files directly inside
the directory (`fs::directory_iterator` is not recursive). -/
def discoverPlugins (world : PluginWorld) (d : List String) : List FPath :=
  (world.modules.filter (fun e => e.1.dir == d && isValidPluginFile e.2 e.1)).map (·.1)

/-- Loop body of `PluginManager::loadPluginsFromDirectory` (also reused by
`reloadAllPlugins`): load each path in turn, counting the calls that
returned `RAGGER_SUCCESS`. -/
def loadPluginsAux (world : PluginWorld) (now : Nat) :
    PMState → List FPath → Nat × PMState
  | s, [] => (0, s)
  | s, p :: rest =>
      let r := s.loadPlugin world now p
      let t := loadPluginsAux world now r.2 rest
      ((if r.1 = RAGGER_SUCCESS then 1 else 0) + t.1, t.2)

/-- `PluginManager::loadPluginsFromDirectory`: missing or non-directory
argument fails with `RAGGER_ERROR_FILE_NOT_FOUND`; otherwise every
discovered plugin file is loaded and the count of successful loads is
returned. -/
def PMState.loadPluginsFromDirectory (s : PMState) (world : PluginWorld)
    (now : Nat) (d : List String) : Int × PMState :=
  if !world.dirs.contains d then (RAGGER_ERROR_FILE_NOT_FOUND, s)
  else
    let t := loadPluginsAux world now s (discoverPlugins world d)
    ((t.1 : Int), t.2)

/-- Loop body of `PluginManager::unloadAllPlugins`: unload each collected
name in turn, counting the successes. -/
def unloadAllAux : PMState → List String → Nat × PMState
  | s, [] => (0, s)
  | s, name :: rest =>
      let r := s.unloadPlugin name
      let t := unloadAllAux r.2 rest
      ((if r.1 = RAGGER_SUCCESS then 1 else 0) + t.1, t.2)

/-- `PluginManager::unloadAllPlugins`: collect the loaded names first, then
unload each one, returning the count of successful unloads. -/
def PMState.unloadAllPlugins (s : PMState) : Int × PMState :=
  let t := unloadAllAux s (s.loadedPlugins.map (·.1))
  ((t.1 : Int), t.2)

/-- `PluginManager::reloadAllPlugins`: record the loaded paths, unload
everything, then load each recorded path again, returning the count of
successful re-loads. -/
def PMState.reloadAllPlugins (s : PMState) (world : PluginWorld) (now : Nat) :
    Int × PMState :=
  let paths := s.loadedPlugins.map (fun e => e.2.info.path)
  let s1 := s.unloadAllPlugins
  let t := loadPluginsAux world now s1.2 paths
  ((t.1 : Int), t.2)

/-! ## Specification predicates and result traces -/

/-- Two subscriptions clash when they agree on the (event type, callback,
user-data context) triple that `EventBus::subscribe` treats as the unique
registration key. -/
abbrev tripleClash (a b : Subscription) : Prop :=
  a.type = b.type ∧ a.callback = b.callback ∧ a.userData = b.userData

/-- No two registered subscriptions share the (type, callback, context)
triple. -/
abbrev UniqueTriples (s : BusState) : Prop :=
  s.subscriptions.Pairwise (fun a b => ¬ tripleClash a b)

/-- The mutating entry points of the `EventBus` subscription list. -/
inductive BusOp
  | sub (type : EventType) (callback userData : Nat) (priority : Int)
      (filter : Option String)
  | subMulti (types : List EventType) (callback userData : Nat) (priority : Int)
      (filter : Option String)
  | unsub (type : EventType) (callback : Nat)
  | unsubAll (callback : Nat)

def BusOp.isSubscribeMultiple : BusOp → Bool
  | .subMulti _ _ _ _ _ => true
  | _ => false

def applyBusOp (s : BusState) : BusOp → BusState
  | .sub t cb ud pr f => (s.subscribe t cb ud pr f).2
  | .subMulti ts cb ud pr f => (s.subscribeMultiple ts cb ud pr f).2
  | .unsub t cb => (s.unsubscribe t cb).2
  | .unsubAll cb => (s.unsubscribeAll cb).2

def applyBusOps (s : BusState) (ops : List BusOp) : BusState :=
  ops.foldl applyBusOp s

/-- Number of registry entries under a given key. -/
def countKey {β : Type} (l : List (String × β)) (k : String) : Nat :=
  (l.filter (fun e => decide (e.1 = k))).length

/-- Per-item result codes of the `loadPluginsFromDirectory` /
`reloadAllPlugins` loop, in processing order: each item is attempted from
the state the previous items left behind. -/
def loadResultTrace (world : PluginWorld) (now : Nat) :
    PMState → List FPath → List Int
  | _, [] => []
  | s, p :: rest =>
      (s.loadPlugin world now p).1 ::
        loadResultTrace world now (s.loadPlugin world now p).2 rest

/-- Per-item result codes of the `unloadAllPlugins` loop. -/
def unloadResultTrace : PMState → List String → List Int
  | _, [] => []
  | s, n :: rest =>
      (s.unloadPlugin n).1 :: unloadResultTrace (s.unloadPlugin n).2 rest

/-- Per-item result codes of the `indexDirectory` loop. -/
def indexResultTrace (fsys : FileSys) (now : Nat) :
    IMState → List FPath → List Int
  | _, [] => []
  | s, p :: rest =>
      (s.indexFile fsys now p).1 ::
        indexResultTrace fsys now (s.indexFile fsys now p).2 rest

/-! ## Concrete inputs used by witnesses and counterexamples -/

def aCpp : FPath := { dir := ["proj"], stem := "a", ext := ".cpp" }

def missingCpp : FPath := { dir := ["proj"], stem := "missing", ext := ".cpp" }

/-- One regular source file `proj/a.cpp` with content "hello". -/
def exampleFS : FileSys :=
  { dirs := [["proj"]]
    files := [(aCpp, { regular := true, bytes := [104, 101, 108, 108, 111] })] }

/-- The same file system after `proj/a.cpp` was overwritten with
"hello!". -/
def exampleFS2 : FileSys :=
  { dirs := [["proj"]]
    files := [(aCpp, { regular := true, bytes := [104, 101, 108, 108, 111, 33] })] }

/-- An index state holding one fully populated file: a catalog row, one code
block, one inverted-index posting and one symbol row. -/
def c7State : IMState :=
  { db := { files := [{ path := aCpp, hash := [1], lastIndexed := 5, fileSize := 2 }]
            codeBlocks := [{ id := 1, filePath := aCpp, name := "f", content := "x",
                             startLine := 1, endLine := 2, blockType := "function",
                             visibility := 2 }]
            invertedIndex := [{ token := "x", blockId := 1, frequency := 1 }]
            symbols := [{ id := 1, filePath := aCpp, name := "f",
                          symType := "function", signature := "f()",
                          definitionBlockId := some 1 }] }
    fileHashes := [(aCpp, [1])]
    hashCache := [(aCpp, 5)]
    maxFileSize := 10 * 1024 * 1024 }

def fooSo : FPath := { dir := ["plugins"], stem := "foo", ext := ".so" }

def bazSo : FPath := { dir := ["plugins"], stem := "baz", ext := ".so" }

def badSo : FPath := { dir := ["plugins"], stem := "bad", ext := ".so" }

/-- A well-formed module whose `plugin_get_name` reports "bar". -/
def modReportingBar : ModuleDef :=
  { regular := true, loadable := true, getAbiVersion := some 100,
    getName := some "bar", getVersion := some "1.0",
    getDescription := some "demo", initializeResult := some 0,
    hasRegisterEvents := false, getCapabilities := none }

/-- A module reporting ABI version 99 instead of the compiled-in 100. -/
def modBadAbi : ModuleDef :=
  { modReportingBar with getAbiVersion := some 99, getName := some "bad" }

/-- A plugin directory holding two well-formed modules that both
self-report the name "bar", plus one module with a mismatched ABI. -/
def exampleWorld : PluginWorld :=
  { dirs := [["plugins"]]
    modules := [(fooSo, modReportingBar), (bazSo, modReportingBar),
                (badSo, modBadAbi)] }

/-- Two enabled subscriptions to the same event type with equal priority,
distinguished by callback identity; `cexSubA` was registered first. -/
def cexSubA : Subscription :=
  { type := .EVENT_FILE_PARSED, callback := 1, userData := 0, priority := 5,
    filter := "", enabled := true }

def cexSubB : Subscription := { cexSubA with callback := 2 }

def cexBus : BusState := { busInit with subscriptions := [cexSubA, cexSubB] }

def cexEvent : EventData :=
  { type := .EVENT_FILE_PARSED, timestamp := 0, sourcePlugin := none,
    data := none, dataSize := 0 }

/-- A representative call sequence mixing subscribe, unsubscribe and
unsubscribe-all. -/
def demoOps : List BusOp :=
  [.sub .EVENT_FILE_PARSED 1 0 5 none,
   .sub .EVENT_FILE_PARSED 2 0 3 none,
   .unsub .EVENT_FILE_PARSED 1,
   .sub .EVENT_FILE_PARSED 1 0 0 none,
   .unsubAll 2]

/-- Bus state holding one subscription (type `EVENT_FILE_PARSED`,
callback 1, context 0). -/
def dupBus : BusState := (busInit.subscribe .EVENT_FILE_PARSED 1 0 0 none).2

/-! ## Claim theorems -/

/-- C1: at the failing input — empty catalog, regular file `proj/a.cpp`
containing "hello", which passes the inclusion policy and whose content is
new to the catalog — `indexFile` returns success yet inserts no `files`
record and leaves the database untouched.  `needsReindexing` cannot fire
because `calculateFileHash` stores the freshly computed digest into
`fileHashes_` before `needsReindexing` compares against that same map, so
the delete-and-insert path of `indexFile` is unreachable. -/
theorem C1_indexFile_new_file_inserts_no_record :
    imInit.shouldIndexFile exampleFS aCpp = true ∧
    alookup imInit.fileHashes aCpp = none ∧
    imInit.db.files = [] ∧
    (imInit.indexFile exampleFS 1000 aCpp).1 = RAGGER_SUCCESS ∧
    (imInit.indexFile exampleFS 1000 aCpp).2.db = imInit.db := by decide

/-- C2: after `indexFile` on `proj/a.cpp` = "hello" at time 1000, the first
leg holds (`needsReindexing` on the unmodified file is false), but after the
file's bytes are mutated to "hello!" `needsReindexing` still returns false —
both inside the 5-minute hash-cache TTL (time 1060, where the stale cached
digest is returned) and after it has expired (time 2000, where
`calculateFileHash` overwrites the recorded digest with the fresh one before
`needsReindexing` compares the two). -/
theorem C2_needsReindexing_misses_mutation :
    ((imInit.indexFile exampleFS 1000 aCpp).2.needsReindexing exampleFS 1001 aCpp).1
      = false ∧
    alookup exampleFS2.files aCpp ≠ alookup exampleFS.files aCpp ∧
    ((imInit.indexFile exampleFS 1000 aCpp).2.needsReindexing exampleFS2 1060 aCpp).1
      = false ∧
    ((imInit.indexFile exampleFS 1000 aCpp).2.needsReindexing exampleFS2 2000 aCpp).1
      = false := by decide

/-- C7: `rebuildIndex` empties the `files`, `code_blocks` and
`inverted_index` tables and clears the in-memory hash map, but it issues no
`DELETE FROM symbols`: on a state holding one symbol row, the `symbols`
table survives the rebuild unchanged (and non-empty), leaving orphaned
symbol rows that reference deleted files. -/
theorem C7_rebuildIndex_leaves_symbols :
    (c7State.rebuildIndex.2.db.files = [] ∧
     c7State.rebuildIndex.2.db.codeBlocks = [] ∧
     c7State.rebuildIndex.2.db.invertedIndex = [] ∧
     c7State.rebuildIndex.2.fileHashes = []) ∧
    c7State.rebuildIndex.2.db.symbols = c7State.db.symbols ∧
    c7State.db.symbols ≠ [] := by decide

/-- C9: `indexFile` on a path that is missing or not a regular file returns
`RAGGER_ERROR_FILE_NOT_FOUND` with the state untouched, for every state and
file system — in particular before and regardless of the inclusion policy
(extension whitelist, size ceiling), and the result is distinct from the
silent-skip success. -/
theorem C9_indexFile_checks_existence_first
    (s : IMState) (fsys : FileSys) (now : Nat) (p : FPath)
    (h : alookup fsys.files p = none ∨
         ∃ e, alookup fsys.files p = some e ∧ e.regular = false) :
    s.indexFile fsys now p = (RAGGER_ERROR_FILE_NOT_FOUND, s) ∧
    RAGGER_ERROR_FILE_NOT_FOUND ≠ RAGGER_SUCCESS := by
  refine ⟨?_, by decide⟩
  rcases h with h | ⟨e, he, hr⟩
  · simp [IMState.indexFile, h]
  · simp [IMState.indexFile, he, hr]

/-- C9 witness: `indexFile` on the absent `proj/missing.cpp`. -/
theorem C9_witness :
    imInit.indexFile exampleFS 0 missingCpp = (RAGGER_ERROR_FILE_NOT_FOUND, imInit) ∧
    RAGGER_ERROR_FILE_NOT_FOUND ≠ RAGGER_SUCCESS :=
  C9_indexFile_checks_existence_first imInit exampleFS 0 missingCpp (Or.inl (by decide))

/-- C10: `emitEvent` and `emitEventAsync` on a null event pointer return
`RAGGER_ERROR_INVALID_ARGUMENT` and return the state unchanged — in
particular the statistics counters, the subscription list and the event
queue are untouched — for every bus state. -/
theorem C10_null_event_rejected_without_effect :
    ∀ (s : BusState) (duration : Nat),
      s.emitEvent none duration = (RAGGER_ERROR_INVALID_ARGUMENT, s) ∧
      s.emitEventAsync none = (RAGGER_ERROR_INVALID_ARGUMENT, s) := by
  intro s duration
  exact ⟨rfl, rfl⟩

/-- C3 counterexample: loading `plugins/foo.so`, whose `plugin_get_name`
reports "bar", succeeds but registers the descriptor under the path stem
"foo" — no registry entry exists under the self-reported name "bar" — and a
second module `plugins/baz.so` also reporting "bar" loads successfully as
well, after which two descriptors self-reporting "bar" are registered. -/
theorem C3_registry_key_is_path_stem_cex :
    (pmInit.loadPlugin exampleWorld 0 fooSo).1 = RAGGER_SUCCESS ∧
    modReportingBar.getName = some "bar" ∧
    alookup (pmInit.loadPlugin exampleWorld 0 fooSo).2.loadedPlugins "bar" = none ∧
    (alookup (pmInit.loadPlugin exampleWorld 0 fooSo).2.loadedPlugins "foo").isSome
      = true ∧
    ((pmInit.loadPlugin exampleWorld 0 fooSo).2.loadPlugin exampleWorld 0 bazSo).1 =
      RAGGER_SUCCESS ∧
    ((((pmInit.loadPlugin exampleWorld 0 fooSo).2.loadPlugin
          exampleWorld 0 bazSo).2.loadedPlugins.filter
        (fun e => e.2.info.name == "bar")).length = 2) := by decide

/-- C5 counterexample: with two enabled equal-priority subscriptions to the
same type, registered in the order `cexSubA`, `cexSubB`, the invocation
sequence `[cexSubB, cexSubA]` — the reverse of registration order — is a
possible outcome of `processEvent`, because the `std::sort` contract permits
any sorted permutation and the comparator cannot distinguish equal
priorities. -/
theorem C5_equal_priority_order_unspecified_cex :
    cexBus.findMatchingSubscriptions cexEvent = [cexSubA, cexSubB] ∧
    ProcessEventInvokes cexBus cexEvent [cexSubB, cexSubA] ∧
    [cexSubB, cexSubA] ≠ [cexSubA, cexSubB] :=
  ⟨by decide, ⟨[cexSubB, cexSubA], ⟨by decide, by decide⟩, by decide⟩, by decide⟩

/-- C6 counterexample: after `subscribe(EVENT_FILE_PARSED, 1, 0)` followed
by `subscribeMultiple([EVENT_FILE_PARSED], 1, 0)`, two registered
subscriptions share the same (type, callback, context) triple —
`subscribeMultiple` performs no duplicate check. -/
theorem C6_subscribeMultiple_allows_duplicate_cex :
    ¬ UniqueTriples
        ((dupBus.subscribeMultiple [.EVENT_FILE_PARSED] 1 0 0 none).2) := by decide

/-- C4: a module whose reported ABI version differs from the compiled-in
constant makes `loadPlugin` return `RAGGER_ERROR_ABI_VERSION_MISMATCH`,
leave the loaded-plugin registry unchanged (the plugin is absent), and
close the dynamic-module handle before returning — the open-handle count is
back to its pre-call value.  Only the diagnostic error log grows. -/
theorem C4_abi_mismatch_rejected
    (world : PluginWorld) (s : PMState) (now : Nat) (p : FPath) (m : ModuleDef)
    (abi : Int) (nm ver desc : String)
    (hm : alookup world.modules p = some m)
    (hreg : alookup s.loadedPlugins (extractPluginNameFromPath p) = none)
    (hload : m.loadable = true)
    (habi : m.getAbiVersion = some abi)
    (hnm : m.getName = some nm)
    (hver : m.getVersion = some ver)
    (hdesc : m.getDescription = some desc)
    (hbad : abi ≠ RAGGER_PLUGIN_ABI_VERSION) :
    (s.loadPlugin world now p).1 = RAGGER_ERROR_ABI_VERSION_MISMATCH ∧
    (s.loadPlugin world now p).2.loadedPlugins = s.loadedPlugins ∧
    (s.loadPlugin world now p).2.openHandles = s.openHandles := by
  have hne : RAGGER_ERROR_ABI_VERSION_MISMATCH ≠ RAGGER_SUCCESS := by decide
  simp [PMState.loadPlugin, hm, hreg, loadPluginLibrary, hload, habi, hnm, hver,
    hdesc, checkPluginABI, hbad, PMState.reportPluginError, hne]

/-- C4 witness: loading `plugins/bad.so`, which reports ABI 99 against the
compiled-in 100, from a fresh manager. -/
theorem C4_witness :
    (pmInit.loadPlugin exampleWorld 7 badSo).1 = RAGGER_ERROR_ABI_VERSION_MISMATCH ∧
    (pmInit.loadPlugin exampleWorld 7 badSo).2.loadedPlugins = pmInit.loadedPlugins ∧
    (pmInit.loadPlugin exampleWorld 7 badSo).2.openHandles = pmInit.openHandles :=
  C4_abi_mismatch_rejected exampleWorld pmInit 7 badSo modBadAbi 99 "bad" "1.0"
    "demo" (by decide) (by decide) (by decide) (by decide) (by decide) (by decide)
    (by decide) (by decide)

/-- A key absent from an association list differs from every stored key. -/
theorem alookup_eq_none {α β : Type} [DecidableEq α] :
    ∀ (l : List (α × β)) (a : α), alookup l a = none → ∀ e ∈ l, e.1 ≠ a := by
  intro l a h
  induction l with
  | nil => simp
  | cons x rest ih =>
      obtain ⟨k, v⟩ := x
      simp only [alookup] at h
      by_cases hx : k = a
      · simp [hx] at h
      · intro e he
        simp only [List.mem_cons] at he
        rcases he with rfl | he
        · exact hx
        · exact ih (by simpa [hx] using h) e he

/-- Appending a fresh binding makes it the one found. -/
theorem alookup_append_right {α β : Type} [DecidableEq α] :
    ∀ (l : List (α × β)) (a : α) (b : β), alookup l a = none →
      alookup (l ++ [(a, b)]) a = some b := by
  intro l a b h
  induction l with
  | nil => simp [alookup]
  | cons x rest ih =>
      obtain ⟨k, v⟩ := x
      simp only [alookup] at h
      by_cases hx : k = a
      · simp [hx] at h
      · simp only [List.cons_append, alookup, if_neg hx]
        exact ih (by simpa [hx] using h)

/-- Inserting under an absent key appends the binding. -/
theorem aupsert_of_none {α β : Type} [DecidableEq α] :
    ∀ (l : List (α × β)) (a : α) (b : β), alookup l a = none →
      aupsert l a b = l ++ [(a, b)] := by
  intro l a b h
  induction l with
  | nil => simp [aupsert]
  | cons x rest ih =>
      obtain ⟨k, v⟩ := x
      simp only [alookup] at h
      by_cases hx : k = a
      · simp [hx] at h
      · simp only [aupsert, if_neg hx, List.cons_append, List.cons.injEq, true_and]
        exact ih (by simpa [hx] using h)

/-- An absent key has no registry entries. -/
theorem countKey_zero {β : Type} (l : List (String × β)) (k : String)
    (h : alookup l k = none) : countKey l k = 0 := by
  unfold countKey
  rw [List.length_eq_zero, List.filter_eq_nil_iff]
  intro e he
  simpa using alookup_eq_none l k h e he

/-- Entry counts add over list append. -/
theorem countKey_append {β : Type} (l1 l2 : List (String × β)) (k : String) :
    countKey (l1 ++ l2) k = countKey l1 k + countKey l2 k := by
  unfold countKey
  rw [List.filter_append, List.length_append]

/-- C3 (amended): a successful `loadPlugin` registers the descriptor under
the plugin file's path stem — not the name the module reports via
`plugin_get_name`, which is only stored inside the descriptor — and a second
`loadPlugin` of any module file with the same path stem fails with
`RAGGER_ERROR_INVALID_ARGUMENT`, leaving the state unchanged with exactly
one descriptor registered for that stem.  The hypotheses spell out the
success path of the first load: the module exists, `dlopen` succeeds, the
four mandatory symbols resolve, the reported ABI matches and
`plugin_initialize` returns zero, with the stem not yet registered. -/
theorem C3_registers_under_stem
    (world : PluginWorld) (s : PMState) (now now2 : Nat) (p p2 : FPath)
    (m m2 : ModuleDef) (nm ver desc : String)
    (hm : alookup world.modules p = some m)
    (hreg : alookup s.loadedPlugins p.stem = none)
    (hload : m.loadable = true)
    (habi : m.getAbiVersion = some RAGGER_PLUGIN_ABI_VERSION)
    (hnm : m.getName = some nm)
    (hver : m.getVersion = some ver)
    (hdesc : m.getDescription = some desc)
    (hinit : m.initializeResult = some RAGGER_SUCCESS)
    (hstem : p2.stem = p.stem)
    (hm2 : alookup world.modules p2 = some m2) :
    (s.loadPlugin world now p).1 = RAGGER_SUCCESS ∧
    (∃ lp, alookup (s.loadPlugin world now p).2.loadedPlugins p.stem = some lp ∧
       lp.info.name = nm) ∧
    (s.loadPlugin world now p).2.loadPlugin world now2 p2 =
      (RAGGER_ERROR_INVALID_ARGUMENT, (s.loadPlugin world now p).2) ∧
    countKey (s.loadPlugin world now p).2.loadedPlugins p.stem = 1 := by
  have hregb : (alookup s.loadedPlugins (extractPluginNameFromPath p)).isSome = false := by
    simp [extractPluginNameFromPath, hreg]
  have hmain : s.loadPlugin world now p =
      (RAGGER_SUCCESS,
       { s with openHandles := s.openHandles + 1,
                loadedPlugins := aupsert s.loadedPlugins p.stem
                  { name := p.stem,
                    info := { name := nm, version := ver, description := desc,
                              path := p, loaded := true,
                              abiVersion := RAGGER_PLUGIN_ABI_VERSION,
                              capabilities := m.getCapabilities.getD "" },
                    libraryOpen := true } }) := by
    cases hc : m.getCapabilities with
    | none =>
        simp [PMState.loadPlugin, hm, hregb, hreg, loadPluginLibrary, hload, habi,
          hnm, hver, hdesc, checkPluginABI, initializePlugin, hinit, hc,
          extractPluginNameFromPath]
    | some caps =>
        simp [PMState.loadPlugin, hm, hregb, hreg, loadPluginLibrary, hload, habi,
          hnm, hver, hdesc, checkPluginABI, initializePlugin, hinit, hc,
          extractPluginNameFromPath]
  rw [aupsert_of_none _ _ _ hreg] at hmain
  have hlook : alookup (s.loadPlugin world now p).2.loadedPlugins p.stem =
      some { name := p.stem,
             info := { name := nm, version := ver, description := desc,
                       path := p, loaded := true,
                       abiVersion := RAGGER_PLUGIN_ABI_VERSION,
                       capabilities := m.getCapabilities.getD "" },
             libraryOpen := true } := by
    rw [hmain]
    exact alookup_append_right _ _ _ hreg
  refine ⟨by rw [hmain], ⟨_, hlook, rfl⟩, ?_, ?_⟩
  · have hregb2 : (alookup (s.loadPlugin world now p).2.loadedPlugins
        (extractPluginNameFromPath p2)).isSome = true := by
      simp [extractPluginNameFromPath, hstem, hlook]
    generalize hgen : (s.loadPlugin world now p).2 = s2 at hregb2 ⊢
    simp [PMState.loadPlugin, hm2, hregb2]
  · rw [hmain]
    show countKey (s.loadedPlugins ++ [(p.stem, _)]) p.stem = 1
    rw [countKey_append, countKey_zero _ _ hreg]
    simp [countKey]

/-- C3 witness: load `plugins/foo.so` (reporting "bar") from a fresh
manager, then load the same stem again. -/
theorem C3_witness :
    (pmInit.loadPlugin exampleWorld 0 fooSo).1 = RAGGER_SUCCESS ∧
    (∃ lp, alookup (pmInit.loadPlugin exampleWorld 0 fooSo).2.loadedPlugins
        fooSo.stem = some lp ∧ lp.info.name = "bar") ∧
    (pmInit.loadPlugin exampleWorld 0 fooSo).2.loadPlugin exampleWorld 1 fooSo =
      (RAGGER_ERROR_INVALID_ARGUMENT, (pmInit.loadPlugin exampleWorld 0 fooSo).2) ∧
    countKey (pmInit.loadPlugin exampleWorld 0 fooSo).2.loadedPlugins fooSo.stem = 1 :=
  C3_registers_under_stem exampleWorld pmInit 0 1 fooSo fooSo modReportingBar
    modReportingBar "bar" "1.0" "demo" (by decide) rfl (by decide) (by decide)
    (by decide) (by decide) (by decide) (by decide) rfl (by decide)

/-- A matching subscription is enabled (the first check of
`Subscription::matches`). -/
theorem Subscription.enabled_of_matches (sub : Subscription) (e : EventData)
    (h : sub.matches e = true) : sub.enabled = true := by
  cases hen : sub.enabled with
  | true => rfl
  | false => rw [Subscription.matches, hen] at h; simp at h

/-- C5 (amended): every callback-invocation sequence `processEvent` can
produce invokes the matching enabled subscriptions each exactly once (the
sequence is a permutation of them) in descending-priority order; the
relative order of equal-priority subscriptions is whatever the unstable
`std::sort` leaves, not necessarily registration order. -/
theorem C5_descending_priority_dispatch
    (s : BusState) (e : EventData) (calls : List Subscription)
    (h : ProcessEventInvokes s e calls) :
    SortedByPriority calls ∧ calls.Perm (s.findMatchingSubscriptions e) := by
  obtain ⟨sorted, ⟨hperm, hsorted⟩, hcalls⟩ := h
  have hen : ∀ sub ∈ sorted, sub.enabled = true := by
    intro sub hs
    have hmem : sub ∈ s.findMatchingSubscriptions e := hperm.mem_iff.mp hs
    have hf := (List.mem_filter.mp hmem).2
    simp only [Bool.and_eq_true] at hf
    exact Subscription.enabled_of_matches sub e hf.2
  have hid : invokeSequence sorted = sorted := by
    rw [invokeSequence, List.filter_eq_self]
    exact hen
  rw [hcalls, hid]
  exact ⟨hsorted, hperm⟩

/-- C5 witness: the reversed-tie invocation sequence on the two-subscription
bus is sorted by priority and a permutation of the matching list. -/
theorem C5_priority_witness :
    SortedByPriority [cexSubB, cexSubA] ∧
    [cexSubB, cexSubA].Perm (cexBus.findMatchingSubscriptions cexEvent) :=
  C5_descending_priority_dispatch cexBus cexEvent [cexSubB, cexSubA]
    ⟨[cexSubB, cexSubA], ⟨by decide, by decide⟩, by decide⟩

/-- `subscribe` never creates a duplicate (type, callback, context)
triple. -/
theorem subscribe_preserves_unique (s : BusState) (t : EventType)
    (cb ud : Nat) (pr : Int) (f : Option String)
    (h : UniqueTriples s) : UniqueTriples (s.subscribe t cb ud pr f).2 := by
  unfold BusState.subscribe
  by_cases h0 : cb = 0
  · simp only [if_pos h0]; exact h
  · rw [if_neg h0]
    by_cases hdup : s.subscriptions.any (fun sub =>
        decide (sub.type = t) && decide (sub.callback = cb) &&
        decide (sub.userData = ud)) = true
    · rw [if_pos hdup]; exact h
    · rw [if_neg hdup]
      show List.Pairwise _ (s.subscriptions ++ [_])
      rw [List.pairwise_append]
      refine ⟨h, List.pairwise_singleton _ _, ?_⟩
      intro a ha b hb
      simp only [List.mem_singleton] at hb
      subst hb
      intro hclash
      apply hdup
      rw [List.any_eq_true]
      refine ⟨a, ha, ?_⟩
      obtain ⟨h1, h2, h3⟩ := hclash
      simp [h1, h2, h3]

/-- Removing subscriptions cannot create duplicates. -/
theorem unsubscribe_preserves_unique (s : BusState) (t : EventType) (cb : Nat)
    (h : UniqueTriples s) : UniqueTriples (s.unsubscribe t cb).2 := by
  unfold BusState.unsubscribe
  by_cases h0 : cb = 0
  · simp only [if_pos h0]; exact h
  · rw [if_neg h0]
    by_cases hdup : s.subscriptions.any (fun sub =>
        decide (sub.type = t) && decide (sub.callback = cb)) = true
    · rw [if_pos hdup]
      exact List.Pairwise.filter _ h
    · rw [if_neg hdup]; exact h

/-- Removing subscriptions cannot create duplicates. -/
theorem unsubscribeAll_preserves_unique (s : BusState) (cb : Nat)
    (h : UniqueTriples s) : UniqueTriples (s.unsubscribeAll cb).2 := by
  unfold BusState.unsubscribeAll
  by_cases h0 : cb = 0
  · simp only [if_pos h0]; exact h
  · rw [if_neg h0]
    exact List.Pairwise.filter _ h

/-- Every mutating entry point except `subscribeMultiple` preserves
uniqueness of the (type, callback, context) triples. -/
theorem applyBusOp_preserves_unique (s : BusState) (op : BusOp)
    (hop : op.isSubscribeMultiple = false) (h : UniqueTriples s) :
    UniqueTriples (applyBusOp s op) := by
  cases op with
  | sub t cb ud pr f => exact subscribe_preserves_unique s t cb ud pr f h
  | subMulti ts cb ud pr f => simp [BusOp.isSubscribeMultiple] at hop
  | unsub t cb => exact unsubscribe_preserves_unique s t cb h
  | unsubAll cb => exact unsubscribeAll_preserves_unique s cb h

/-- C6 (amended): after every sequence of `subscribe`, `unsubscribe` and
`unsubscribeAll` calls — `subscribeMultiple` excluded, since it performs no
duplicate check — no two registered subscriptions share the
(type, callback, context) triple; and `subscribe` with a null callback or an
already-registered triple returns `RAGGER_ERROR_INVALID_ARGUMENT` leaving
the state unchanged. -/
theorem C6_unique_triples :
    (∀ (s : BusState) (ops : List BusOp),
        UniqueTriples s → (∀ op ∈ ops, op.isSubscribeMultiple = false) →
        UniqueTriples (applyBusOps s ops)) ∧
    (∀ (s : BusState) (t : EventType) (cb ud : Nat) (pr : Int)
        (f : Option String), cb = 0 →
      s.subscribe t cb ud pr f = (RAGGER_ERROR_INVALID_ARGUMENT, s)) ∧
    (∀ (s : BusState) (t : EventType) (cb ud : Nat) (pr : Int)
        (f : Option String),
      s.subscriptions.any (fun sub =>
        decide (sub.type = t) && decide (sub.callback = cb) &&
        decide (sub.userData = ud)) = true →
      s.subscribe t cb ud pr f = (RAGGER_ERROR_INVALID_ARGUMENT, s)) := by
  refine ⟨?_, ?_, ?_⟩
  · intro s ops hu hops
    induction ops generalizing s with
    | nil => exact hu
    | cons op rest ih =>
        rw [applyBusOps, List.foldl_cons]
        exact ih (applyBusOp s op)
          (applyBusOp_preserves_unique s op (hops op (by simp)) hu)
          (fun o ho => hops o (by simp [ho]))
  · intro s t cb ud pr f h0
    unfold BusState.subscribe
    rw [if_pos h0]
  · intro s t cb ud pr f hdup
    unfold BusState.subscribe
    by_cases h0 : cb = 0
    · rw [if_pos h0]
    · rw [if_neg h0, if_pos hdup]

/-- C6 witness: a demo sequence of subscribe/unsubscribe calls keeps the
triples unique, and both rejection branches of `subscribe` fire on concrete
inputs without touching the state. -/
theorem C6_witness :
    UniqueTriples (applyBusOps busInit demoOps) ∧
    busInit.subscribe .EVENT_FILE_PARSED 0 0 0 none =
      (RAGGER_ERROR_INVALID_ARGUMENT, busInit) ∧
    dupBus.subscribe .EVENT_FILE_PARSED 1 0 0 none =
      (RAGGER_ERROR_INVALID_ARGUMENT, dupBus) :=
  ⟨C6_unique_triples.1 busInit demoOps (by decide) (by decide),
   C6_unique_triples.2.1 busInit .EVENT_FILE_PARSED 0 0 0 none rfl,
   C6_unique_triples.2.2 dupBus .EVENT_FILE_PARSED 1 0 0 none (by decide)⟩

/-- The directory-load loop visits every path — no item's failure aborts
the rest — and its counter equals the number of per-item successes. -/
theorem loadPluginsAux_trace (world : PluginWorld) (now : Nat) :
    ∀ (ps : List FPath) (s : PMState),
      (loadPluginsAux world now s ps).1 =
        (loadResultTrace world now s ps).countP
          (fun r => decide (r = RAGGER_SUCCESS)) ∧
      (loadResultTrace world now s ps).length = ps.length := by
  intro ps
  induction ps with
  | nil => intro s; simp [loadPluginsAux, loadResultTrace]
  | cons p rest ih =>
      intro s
      obtain ⟨h1, h2⟩ := ih (s.loadPlugin world now p).2
      constructor
      · rw [loadPluginsAux, loadResultTrace, List.countP_cons, h1]
        by_cases hr : (s.loadPlugin world now p).1 = RAGGER_SUCCESS
        · simp [hr]
          try omega
        · simp [hr]
          try omega
      · rw [loadResultTrace, List.length_cons, h2, List.length_cons]

/-- The unload-all loop visits every collected name and counts the
successes. -/
theorem unloadAllAux_trace :
    ∀ (ns : List String) (s : PMState),
      (unloadAllAux s ns).1 =
        (unloadResultTrace s ns).countP (fun r => decide (r = RAGGER_SUCCESS)) ∧
      (unloadResultTrace s ns).length = ns.length := by
  intro ns
  induction ns with
  | nil => intro s; simp [unloadAllAux, unloadResultTrace]
  | cons n rest ih =>
      intro s
      obtain ⟨h1, h2⟩ := ih (s.unloadPlugin n).2
      constructor
      · rw [unloadAllAux, unloadResultTrace, List.countP_cons, h1]
        by_cases hr : (s.unloadPlugin n).1 = RAGGER_SUCCESS
        · simp [hr]
          try omega
        · simp [hr]
          try omega
      · rw [unloadResultTrace, List.length_cons, h2, List.length_cons]

/-- The directory-index loop visits every discovered file and counts the
successes. -/
theorem indexFilesAux_trace (fsys : FileSys) (now : Nat) :
    ∀ (ps : List FPath) (s : IMState),
      (indexFilesAux fsys now s ps).1 =
        (indexResultTrace fsys now s ps).countP
          (fun r => decide (r = RAGGER_SUCCESS)) ∧
      (indexResultTrace fsys now s ps).length = ps.length := by
  intro ps
  induction ps with
  | nil => intro s; simp [indexFilesAux, indexResultTrace]
  | cons p rest ih =>
      intro s
      obtain ⟨h1, h2⟩ := ih (s.indexFile fsys now p).2
      constructor
      · rw [indexFilesAux, indexResultTrace, List.countP_cons, h1]
        by_cases hr : (s.indexFile fsys now p).1 = RAGGER_SUCCESS
        · simp [hr]
          try omega
        · simp [hr]
          try omega
      · rw [indexResultTrace, List.length_cons, h2, List.length_cons]

/-- C8: for each bulk operation — `loadPluginsFromDirectory`,
`unloadAllPlugins`, `reloadAllPlugins` and `indexDirectory` — the per-item
result trace is as long as the item list (every item is processed, so one
item's failure never prevents the remaining items from being processed) and
the returned value equals the number of items whose individual operation
returned `RAGGER_SUCCESS`. -/
theorem C8_bulk_ops_count_successes :
    (∀ (world : PluginWorld) (now : Nat) (s : PMState) (d : List String),
       world.dirs.contains d = true →
       (s.loadPluginsFromDirectory world now d).1 =
         ((loadResultTrace world now s (discoverPlugins world d)).countP
            (fun r => decide (r = RAGGER_SUCCESS)) : Int) ∧
       (loadResultTrace world now s (discoverPlugins world d)).length =
         (discoverPlugins world d).length) ∧
    (∀ s : PMState,
       s.unloadAllPlugins.1 =
         ((unloadResultTrace s (s.loadedPlugins.map (·.1))).countP
            (fun r => decide (r = RAGGER_SUCCESS)) : Int) ∧
       (unloadResultTrace s (s.loadedPlugins.map (·.1))).length =
         s.loadedPlugins.length) ∧
    (∀ (world : PluginWorld) (now : Nat) (s : PMState),
       (s.reloadAllPlugins world now).1 =
         ((loadResultTrace world now s.unloadAllPlugins.2
             (s.loadedPlugins.map (fun e => e.2.info.path))).countP
            (fun r => decide (r = RAGGER_SUCCESS)) : Int) ∧
       (loadResultTrace world now s.unloadAllPlugins.2
           (s.loadedPlugins.map (fun e => e.2.info.path))).length =
         s.loadedPlugins.length) ∧
    (∀ (fsys : FileSys) (now : Nat) (s : IMState) (d : List String),
       fsys.dirs.contains d = true →
       (s.indexDirectory fsys now d).1 =
         ((indexResultTrace fsys now s (s.discoverFiles fsys d)).countP
            (fun r => decide (r = RAGGER_SUCCESS)) : Int) ∧
       (indexResultTrace fsys now s (s.discoverFiles fsys d)).length =
         (s.discoverFiles fsys d).length) := by
  refine ⟨?_, ?_, ?_, ?_⟩
  · intro world now s d hd
    obtain ⟨h1, h2⟩ := loadPluginsAux_trace world now (discoverPlugins world d) s
    refine ⟨?_, h2⟩
    rw [PMState.loadPluginsFromDirectory, if_neg (by rw [hd]; decide)]
    exact congrArg (fun n : Nat => (n : Int)) h1
  · intro s
    obtain ⟨h1, h2⟩ := unloadAllAux_trace (s.loadedPlugins.map (·.1)) s
    refine ⟨?_, by rw [h2, List.length_map]⟩
    rw [PMState.unloadAllPlugins]
    exact congrArg (fun n : Nat => (n : Int)) h1
  · intro world now s
    obtain ⟨h1, h2⟩ := loadPluginsAux_trace world now
      (s.loadedPlugins.map (fun e => e.2.info.path)) s.unloadAllPlugins.2
    refine ⟨?_, by rw [h2, List.length_map]⟩
    rw [PMState.reloadAllPlugins]
    exact congrArg (fun n : Nat => (n : Int)) h1
  · intro fsys now s d hd
    obtain ⟨h1, h2⟩ := indexFilesAux_trace fsys now (s.discoverFiles fsys d) s
    refine ⟨?_, h2⟩
    rw [IMState.indexDirectory, if_neg (by rw [hd]; decide)]
    exact congrArg (fun n : Nat => (n : Int)) h1

/-- C8 witness: the plugin directory holding two good modules and one
bad-ABI module, and the source directory holding one eligible file. -/
theorem C8_witness :
    ((pmInit.loadPluginsFromDirectory exampleWorld 0 ["plugins"]).1 =
       ((loadResultTrace exampleWorld 0 pmInit
           (discoverPlugins exampleWorld ["plugins"])).countP
          (fun r => decide (r = RAGGER_SUCCESS)) : Int) ∧
     (loadResultTrace exampleWorld 0 pmInit
         (discoverPlugins exampleWorld ["plugins"])).length =
       (discoverPlugins exampleWorld ["plugins"]).length) ∧
    ((imInit.indexDirectory exampleFS 0 ["proj"]).1 =
       ((indexResultTrace exampleFS 0 imInit
           (imInit.discoverFiles exampleFS ["proj"])).countP
          (fun r => decide (r = RAGGER_SUCCESS)) : Int) ∧
     (indexResultTrace exampleFS 0 imInit
         (imInit.discoverFiles exampleFS ["proj"])).length =
       (imInit.discoverFiles exampleFS ["proj"]).length) :=
  ⟨C8_bulk_ops_count_successes.1 exampleWorld 0 pmInit ["plugins"] (by decide),
   C8_bulk_ops_count_successes.2.2.2 exampleFS 0 imInit ["proj"] (by decide)⟩

end Ragger
